import Mathlib

/-!
Verification of the IT-inventory warranty-alert engine and asset lifecycle
state machine, shallowly embedded from
`backend/app/services/warranty_service.py`, `backend/app/routes/assets.py`,
`backend/app/schemas.py` and `backend/app/models.py`.

Calendar dates and timestamps are modelled as integers (day numbers), so
Python's `(warranty_end - today).days` becomes integer subtraction and
`datetime.utcnow() - timedelta(days=n)` becomes `now - n`.
-/

/-- `AssetStatus` enum from `models.py`. -/
inductive AssetStatus where
  | active
  | available
  | repair
  | decommissioned
deriving DecidableEq, Repr

/-- The three warranty notification type keys `"expired"`, `"30_day"`,
`"90_day"` used by `warranty_service.py`. -/
inductive NotifType where
  | expired
  | day30
  | day90
deriving DecidableEq, Repr

/-- The columns of the `Asset` model relevant to the engine (`models.py`).
Dates are day numbers; `repairs` live in a separate table (see `RepairRec`). -/
structure Asset where
  id : Nat
  asset_tag : String
  name : String
  serial_number : Option String
  purchase_date : Option Int
  warranty_end : Option Int
  status : AssetStatus
  assigned_to : Option Nat
  assigned_date : Option Int
  decommission_date : Option Int
  decommission_reason : Option String
  notes : Option String
deriving DecidableEq, Repr

/-- A row of the `warranty_notifications` table (`models.py`). -/
structure WarrantyNotification where
  asset_id : Nat
  notification_type : NotifType
  sent_at : Int
deriving DecidableEq, Repr

/-- `WarrantyNotificationService.check_warranty_already_notified`: true when a
history row with the given asset id and type has `sent_at >= now - days_lookback`. -/
def check_warranty_already_notified (hist : List WarrantyNotification)
    (asset_id : Nat) (notification_type : NotifType)
    (days_lookback : Int) (now : Int) : Bool :=
  hist.any fun r =>
    decide (r.asset_id = asset_id ∧ r.notification_type = notification_type ∧
      now - days_lookback ≤ r.sent_at)

/-- The type-specific cooldown lookbacks passed at the three call sites in
`check_and_send_warranty_alerts` (30 for `expired`, 7 for `30_day`,
14 for `90_day`). -/
def lookbackFor : NotifType → Int
  | NotifType.expired => 30
  | NotifType.day30 => 7
  | NotifType.day90 => 14

/-- The tier chosen by the `if days_remaining < 0 / <= 30 / <= 90` chain in
`check_and_send_warranty_alerts`; `none` means the asset is excluded from
alerting. -/
def classify_alert (days_remaining : Int) : Option NotifType :=
  if days_remaining < 0 then some NotifType.expired
  else if days_remaining ≤ 30 then some NotifType.day30
  else if days_remaining ≤ 90 then some NotifType.day90
  else none

/-- The query filter shared by `check_and_send_warranty_alerts` and
`get_warranty_summary`: status not decommissioned and `warranty_end` present. -/
def warranty_candidates (assets : List Asset) : List Asset :=
  assets.filter fun a =>
    decide (a.status ≠ AssetStatus.decommissioned) && a.warranty_end.isSome

/-- The three per-tier batches (`expired`, `expiring_30`, `expiring_90`)
accumulated by the classification loop of `check_and_send_warranty_alerts`. -/
structure Batches where
  expired : List Asset
  expiring_30 : List Asset
  expiring_90 : List Asset
deriving DecidableEq, Repr

/-- The classification loop of `check_and_send_warranty_alerts` (lines 76-105):
for each asset, compute `days_remaining = warranty_end - today`, pick the tier,
and append unless the dedup check suppresses it. -/
def classify_batches (hist : List WarrantyNotification) (today now : Int) :
    List Asset → Batches
  | [] => ⟨[], [], []⟩
  | a :: rest =>
    let b := classify_batches hist today now rest
    match a.warranty_end with
    | none => b
    | some we =>
      let days_remaining := we - today
      if days_remaining < 0 then
        if check_warranty_already_notified hist a.id NotifType.expired 30 now then b
        else { b with expired := a :: b.expired }
      else if days_remaining ≤ 30 then
        if check_warranty_already_notified hist a.id NotifType.day30 7 now then b
        else { b with expiring_30 := a :: b.expiring_30 }
      else if days_remaining ≤ 90 then
        if check_warranty_already_notified hist a.id NotifType.day90 14 now then b
        else { b with expiring_90 := a :: b.expiring_90 }
      else b

/-- The batch of a given notification type. -/
def Batches.ofType (b : Batches) : NotifType → List Asset
  | NotifType.expired => b.expired
  | NotifType.day30 => b.expiring_30
  | NotifType.day90 => b.expiring_90

/-- One call handed to the notifier (`email_service.send_warranty_alert`):
recipients, type, the ids of the batched assets, and the reported outcome. -/
structure NotifierCall where
  ntype : NotifType
  recipients : List String
  asset_ids : List Nat
  success : Bool
deriving DecidableEq, Repr

/-- Observable outcome of one scheduler run: final history-store contents and
the notifier calls made. -/
structure RunResult where
  hist : List WarrantyNotification
  calls : List NotifierCall
deriving DecidableEq, Repr

/-- The history row `record_notification` inserts for one asset of a delivered
batch (`sent_at` defaults to the current time). -/
def notification_row (t : NotifType) (now : Int) (a : Asset) : WarrantyNotification :=
  ⟨a.id, t, now⟩

/-- One `if batch: success = send(...); if success: record each` block of
`check_and_send_warranty_alerts` (lines 115-146). -/
def send_batch (t : NotifType) (batch : List Asset) (admin_emails : List String)
    (send_success : NotifType → Bool) (now : Int) (r : RunResult) : RunResult :=
  if batch.isEmpty then r
  else
    let ok := send_success t
    let r1 : RunResult :=
      { r with calls := r.calls ++ [⟨t, admin_emails, batch.map (fun a => a.id), ok⟩] }
    if ok then
      { r1 with hist := r1.hist ++ batch.map (notification_row t now) }
    else r1

/-- `check_and_send_warranty_alerts`: filter candidates, classify into batches
against the pre-run history, bail out with no sends when no admin emails are
configured, otherwise process the `expired`, 30-day and 90-day batches in
order, recording history rows only for batches the notifier delivered. -/
def check_and_send_warranty_alerts (assets : List Asset)
    (hist : List WarrantyNotification) (today now : Int)
    (admin_emails : List String) (send_success : NotifType → Bool) : RunResult :=
  let b := classify_batches hist today now (warranty_candidates assets)
  if admin_emails.isEmpty then ⟨hist, []⟩
  else
    let r0 : RunResult := ⟨hist, []⟩
    let r1 := send_batch NotifType.expired b.expired admin_emails send_success now r0
    let r2 := send_batch NotifType.day30 b.expiring_30 admin_emails send_success now r1
    send_batch NotifType.day90 b.expiring_90 admin_emails send_success now r2

/-- Entry of one summary bucket in `get_warranty_summary` (id plus the computed
`days_remaining`; the further dict fields are copies of asset columns). -/
structure SummaryInfo where
  id : Nat
  days_remaining : Int
deriving DecidableEq, Repr

/-- The four buckets returned by `get_warranty_summary`. -/
structure Summary where
  expired : List SummaryInfo
  critical_30 : List SummaryInfo
  warning_90 : List SummaryInfo
  active : List SummaryInfo
deriving DecidableEq, Repr

/-- The bucketing loop of `get_warranty_summary` (lines 174-193). -/
def summary_loop (today : Int) : List Asset → Summary
  | [] => ⟨[], [], [], []⟩
  | a :: rest =>
    let s := summary_loop today rest
    match a.warranty_end with
    | none => s
    | some we =>
      let days_remaining := we - today
      let info : SummaryInfo := ⟨a.id, days_remaining⟩
      if days_remaining < 0 then { s with expired := info :: s.expired }
      else if days_remaining ≤ 30 then { s with critical_30 := info :: s.critical_30 }
      else if days_remaining ≤ 90 then { s with warning_90 := info :: s.warning_90 }
      else { s with active := info :: s.active }

/-- `get_warranty_summary`: same candidate query as the alert run, then the
bucketing loop. -/
def get_warranty_summary (assets : List Asset) (today : Int) : Summary :=
  summary_loop today (warranty_candidates assets)

/-- Error outcomes of the asset route handlers (`routes/assets.py`):
`notFound` for the 404 raises, `invalidTransition` for the 400 precondition
raises, `validationError` for pydantic rejection before the handler runs. -/
inductive ApiError where
  | notFound
  | invalidTransition
  | validationError
deriving DecidableEq, Repr

/-- An `AuditLog` row as produced by `log_action` (user id and the JSON change
payload elided). -/
structure AuditFact where
  action : String
  entity_type : String
  entity_id : Nat
deriving DecidableEq, Repr

/-- `assign_asset` (`routes/assets.py` lines 234-299): reject decommissioned
assets, then either assign (employee must exist) or unassign. The handler
returns the possibly-mutated asset and the audit facts written; on an error
raise the asset is untouched and nothing is logged. -/
def assign_asset (asset : Asset) (employee_id : Option Nat)
    (employeeExists : Nat → Bool) (today : Int) :
    Except ApiError Unit × Asset × List AuditFact :=
  if asset.status = AssetStatus.decommissioned then
    (Except.error ApiError.invalidTransition, asset, [])
  else
    match employee_id with
    | some e =>
      if employeeExists e then
        (Except.ok (),
         { asset with assigned_to := some e, assigned_date := some today,
                      status := AssetStatus.active },
         [⟨"ASSIGN", "asset", asset.id⟩])
      else (Except.error ApiError.notFound, asset, [])
    | none =>
      (Except.ok (),
       { asset with assigned_to := none, assigned_date := none,
                    status := AssetStatus.available },
       [⟨"ASSIGN", "asset", asset.id⟩])

/-- `decommission_asset` (`routes/assets.py` lines 302-340). The
`min_length=10` bound on `AssetDecommission.reason` (`schemas.py` line 156) is
enforced by pydantic before the handler runs, so a short reason leaves the
asset untouched. -/
def decommission_asset (asset : Asset) (reason : String) (today : Int) :
    Except ApiError Unit × Asset × List AuditFact :=
  if reason.length < 10 then (Except.error ApiError.validationError, asset, [])
  else if asset.status = AssetStatus.decommissioned then
    (Except.error ApiError.invalidTransition, asset, [])
  else
    (Except.ok (),
     { asset with status := AssetStatus.decommissioned,
                  decommission_date := some today,
                  decommission_reason := some reason,
                  assigned_to := none, assigned_date := none },
     [⟨"DECOMMISSION", "asset", asset.id⟩])

/-- `mark_asset_fixed` (`routes/assets.py` lines 431-460). -/
def mark_asset_fixed (asset : Asset) : Except ApiError Unit × Asset × List AuditFact :=
  if asset.status ≠ AssetStatus.repair then
    (Except.error ApiError.invalidTransition, asset, [])
  else
    (Except.ok (),
     { asset with status := if asset.assigned_to.isSome then AssetStatus.active
                            else AssetStatus.available },
     [⟨"MARK_FIXED", "asset", asset.id⟩])

/-- `RepairCreate` payload (`schemas.py`); `cost` is a plain number here. -/
structure RepairCreate where
  repair_date : Int
  issue_description : String
  resolution : Option String
  cost : Int
  is_warranty_repair : Bool
  vendor : Option String
  ticket_number : Option String
deriving DecidableEq, Repr

/-- A row of the `repairs` table (`models.py`). -/
structure RepairRec where
  asset_id : Nat
  repair_date : Int
  issue_description : String
  resolution : Option String
  cost : Int
  is_warranty_repair : Bool
  vendor : Option String
  ticket_number : Option String
deriving DecidableEq, Repr

/-- `add_repair` (`routes/assets.py` lines 385-428): always inserts the repair
row, and sets the asset to `repair` status only when it is not decommissioned.
The entity id of the freshly inserted repair row is not modelled in the audit
fact. -/
def add_repair (asset : Asset) (repairs : List RepairRec) (rd : RepairCreate) :
    Asset × List RepairRec × List AuditFact :=
  let repair : RepairRec :=
    ⟨asset.id, rd.repair_date, rd.issue_description, rd.resolution, rd.cost,
     rd.is_warranty_repair, rd.vendor, rd.ticket_number⟩
  let asset2 :=
    if asset.status ≠ AssetStatus.decommissioned then
      { asset with status := AssetStatus.repair }
    else asset
  (asset2, repairs ++ [repair], [⟨"CREATE", "repair", asset.id⟩])

/-- `AssetUpdate` (`schemas.py` lines 135-148) restricted to the columns kept
in `Asset`; an outer `none` means the field was not sent (pydantic
`exclude_unset`), the inner option is the column's nullable value. -/
structure AssetUpdate where
  name : Option String := none
  serial_number : Option (Option String) := none
  purchase_date : Option (Option Int) := none
  warranty_end : Option (Option Int) := none
  notes : Option (Option String) := none
  status : Option AssetStatus := none
deriving DecidableEq, Repr

/-- `update_asset` (`routes/assets.py` lines 198-231): set every provided
field; log one UPDATE audit fact exactly when some provided value differed
from the stored one. No lifecycle precondition is checked. -/
def update_asset (asset : Asset) (u : AssetUpdate) : Asset × List AuditFact :=
  let asset2 : Asset :=
    { asset with
      name := u.name.getD asset.name,
      serial_number := u.serial_number.getD asset.serial_number,
      purchase_date := u.purchase_date.getD asset.purchase_date,
      warranty_end := u.warranty_end.getD asset.warranty_end,
      notes := u.notes.getD asset.notes,
      status := u.status.getD asset.status }
  if asset2 = asset then (asset2, [])
  else (asset2, [⟨"UPDATE", "asset", asset.id⟩])

/-- The spec's assignment invariant (§3): `assigned_to` set iff `status ==
active`, except that a `repair` asset may retain its assignee. -/
def assetInvariant (a : Asset) : Prop :=
  (a.status = AssetStatus.active → a.assigned_to.isSome) ∧
  (a.assigned_to.isSome →
    a.status = AssetStatus.active ∨ a.status = AssetStatus.repair)

instance (a : Asset) : Decidable (assetInvariant a) := by
  unfold assetInvariant; infer_instance

/-- Whether one iteration of the classification loop puts the asset into the
batch of type `t`: classified into that tier and not suppressed by the
cooldown check. -/
def tier_selected (hist : List WarrantyNotification) (today now : Int)
    (a : Asset) (t : NotifType) : Bool :=
  match a.warranty_end with
  | none => false
  | some we =>
    decide (classify_alert (we - today) = some t) &&
      !check_warranty_already_notified hist a.id t (lookbackFor t) now

/-- History rows a run appends for the batch of type `t` (closed form of the
per-batch `record_notification` loop). -/
def rows_for (b : Batches) (send_success : NotifType → Bool) (now : Int)
    (t : NotifType) : List WarrantyNotification :=
  if send_success t then (b.ofType t).map (notification_row t now) else []

/-- Notifier calls a run makes for the batch of type `t` (one call when the
batch is non-empty, none otherwise). -/
def call_for (b : Batches) (admin_emails : List String)
    (send_success : NotifType → Bool) (t : NotifType) : List NotifierCall :=
  if (b.ofType t).isEmpty then []
  else [⟨t, admin_emails, (b.ofType t).map (fun a => a.id), send_success t⟩]

/-- Closed form of one run given its pre-computed batches. -/
def run_closed (hist : List WarrantyNotification) (admin_emails : List String)
    (send_success : NotifType → Bool) (now : Int) (b : Batches) : RunResult :=
  ⟨hist ++ rows_for b send_success now NotifType.expired
        ++ rows_for b send_success now NotifType.day30
        ++ rows_for b send_success now NotifType.day90,
   call_for b admin_emails send_success NotifType.expired
     ++ call_for b admin_emails send_success NotifType.day30
     ++ call_for b admin_emails send_success NotifType.day90⟩

/-- Sample decommissioned asset used to instantiate concrete checks. -/
def decomAsset : Asset :=
  { id := 1, asset_tag := "LAP-001", name := "Old laptop",
    serial_number := none, purchase_date := none, warranty_end := some 100,
    status := AssetStatus.decommissioned, assigned_to := none,
    assigned_date := none, decommission_date := some 0,
    decommission_reason := some "water damage, scrapped", notes := none }

/-- Sample available, unassigned asset whose warranty ends on day 30. -/
def availAsset : Asset :=
  { id := 2, asset_tag := "LAP-002", name := "New laptop",
    serial_number := none, purchase_date := none, warranty_end := some 30,
    status := AssetStatus.available, assigned_to := none, assigned_date := none,
    decommission_date := none, decommission_reason := none, notes := none }

/-- Sample repair payload. -/
def rdSample : RepairCreate :=
  { repair_date := 5, issue_description := "screen cracked", resolution := none,
    cost := 0, is_warranty_repair := false, vendor := none, ticket_number := none }

/-- Sample notification history: a 30-day alert for `availAsset` sent at time 0. -/
def histSample : List WarrantyNotification := [⟨2, NotifType.day30, 0⟩]

/-- Notifier stub reporting success for every batch. -/
def allSendsOk : NotifType → Bool := fun _ => true

/-- Employee directory stub where every id resolves. -/
def allEmployees : Nat → Bool := fun _ => true

theorem check_warranty_iff (hist : List WarrantyNotification) (asset_id : Nat)
    (t : NotifType) (d now : Int) :
    check_warranty_already_notified hist asset_id t d now = true ↔
      ∃ r ∈ hist, r.asset_id = asset_id ∧ r.notification_type = t ∧
        now - d ≤ r.sent_at := by
  simp [check_warranty_already_notified, List.any_eq_true]

theorem check_warranty_append (hist extra : List WarrantyNotification)
    (asset_id : Nat) (t : NotifType) (d now : Int)
    (h : check_warranty_already_notified hist asset_id t d now = true) :
    check_warranty_already_notified (hist ++ extra) asset_id t d now = true := by
  rw [check_warranty_iff] at h ⊢
  obtain ⟨r, hr, hp⟩ := h
  exact ⟨r, List.mem_append_left _ hr, hp⟩

theorem tier_selected_iff (hist : List WarrantyNotification) (today now : Int)
    (a : Asset) (t : NotifType) :
    tier_selected hist today now a t = true ↔
      ∃ we, a.warranty_end = some we ∧ classify_alert (we - today) = some t ∧
        check_warranty_already_notified hist a.id t (lookbackFor t) now = false := by
  cases hwa : a.warranty_end with
  | none => simp [tier_selected, hwa]
  | some we => simp [tier_selected, hwa]

theorem classify_batches_cons (hist : List WarrantyNotification) (today now : Int)
    (x : Asset) (rest : List Asset) (t : NotifType) :
    (classify_batches hist today now (x :: rest)).ofType t =
      if tier_selected hist today now x t then
        x :: (classify_batches hist today now rest).ofType t
      else (classify_batches hist today now rest).ofType t := by
  cases hwx : x.warranty_end with
  | none => simp [classify_batches, tier_selected, hwx]
  | some we =>
    by_cases h1 : we - today < 0
    · have hca : classify_alert (we - today) = some NotifType.expired := by
        simp [classify_alert, h1]
      by_cases hchk :
          check_warranty_already_notified hist x.id NotifType.expired 30 now = true <;>
        cases t <;>
          simp [classify_batches, tier_selected, hwx, h1, hchk, hca, lookbackFor,
            Batches.ofType]
    · by_cases h2 : we - today ≤ 30
      · have hca : classify_alert (we - today) = some NotifType.day30 := by
          simp [classify_alert, h1, h2]
        by_cases hchk :
            check_warranty_already_notified hist x.id NotifType.day30 7 now = true <;>
          cases t <;>
            simp [classify_batches, tier_selected, hwx, h1, h2, hchk, hca, lookbackFor,
              Batches.ofType]
      · by_cases h3 : we - today ≤ 90
        · have hca : classify_alert (we - today) = some NotifType.day90 := by
            simp [classify_alert, h1, h2, h3]
          by_cases hchk :
              check_warranty_already_notified hist x.id NotifType.day90 14 now = true <;>
            cases t <;>
              simp [classify_batches, tier_selected, hwx, h1, h2, h3, hchk, hca,
                lookbackFor, Batches.ofType]
        · have hca : classify_alert (we - today) = none := by
            simp [classify_alert, h1, h2, h3]
          cases t <;>
            simp [classify_batches, tier_selected, hwx, h1, h2, h3, hca, Batches.ofType]

theorem mem_classify_batches (hist : List WarrantyNotification) (today now : Int)
    (l : List Asset) (a : Asset) (t : NotifType) :
    a ∈ (classify_batches hist today now l).ofType t ↔
      a ∈ l ∧ tier_selected hist today now a t = true := by
  induction l with
  | nil => cases t <;> simp [classify_batches, Batches.ofType]
  | cons x rest ih =>
    rw [classify_batches_cons]
    by_cases hsel : tier_selected hist today now x t = true
    · rw [if_pos hsel]
      simp only [List.mem_cons, ih]
      constructor
      · rintro (rfl | ⟨hm, hs⟩)
        · exact ⟨Or.inl rfl, hsel⟩
        · exact ⟨Or.inr hm, hs⟩
      · rintro ⟨rfl | hm, hs⟩
        · exact Or.inl rfl
        · exact Or.inr ⟨hm, hs⟩
    · rw [if_neg hsel, ih]
      simp only [List.mem_cons]
      constructor
      · rintro ⟨hm, hs⟩; exact ⟨Or.inr hm, hs⟩
      · rintro ⟨rfl | hm, hs⟩
        · exact absurd hs hsel
        · exact ⟨hm, hs⟩

theorem send_batch_eq (t : NotifType) (batch : List Asset)
    (admin_emails : List String) (send_success : NotifType → Bool) (now : Int)
    (r : RunResult) :
    send_batch t batch admin_emails send_success now r =
      ⟨r.hist ++ (if send_success t then batch.map (notification_row t now) else []),
       r.calls ++ (if batch.isEmpty then []
         else [⟨t, admin_emails, batch.map (fun a => a.id), send_success t⟩])⟩ := by
  unfold send_batch
  by_cases hb : batch.isEmpty = true
  · have hnil : batch = [] := by simpa using hb
    subst hnil
    simp
  · by_cases hs : send_success t = true <;> simp [hb, hs]

theorem run_eq (assets : List Asset) (hist : List WarrantyNotification)
    (today now : Int) (admin_emails : List String)
    (send_success : NotifType → Bool) (hne : admin_emails.isEmpty = false) :
    check_and_send_warranty_alerts assets hist today now admin_emails send_success =
      run_closed hist admin_emails send_success now
        (classify_batches hist today now (warranty_candidates assets)) := by
  unfold check_and_send_warranty_alerts run_closed
  simp only [hne, Bool.false_eq_true, if_false]
  rw [send_batch_eq, send_batch_eq, send_batch_eq]
  simp [rows_for, call_for, Batches.ofType, List.append_assoc]

theorem run_no_admins (assets : List Asset) (hist : List WarrantyNotification)
    (today now : Int) (admin_emails : List String)
    (send_success : NotifType → Bool) (hemp : admin_emails.isEmpty = true) :
    check_and_send_warranty_alerts assets hist today now admin_emails send_success =
      ⟨hist, []⟩ := by
  unfold check_and_send_warranty_alerts
  simp [hemp]

theorem singleton_batches (a : Asset) (we today now : Int)
    (hs : a.status ≠ AssetStatus.decommissioned) (hw : a.warranty_end = some we) :
    classify_batches [] today now (warranty_candidates [a]) =
      if we - today < 0 then ⟨[a], [], []⟩
      else if we - today ≤ 30 then ⟨[], [a], []⟩
      else if we - today ≤ 90 then ⟨[], [], [a]⟩
      else ⟨[], [], []⟩ := by
  have hcand : warranty_candidates [a] = [a] := by
    simp [warranty_candidates, hs, hw]
  rw [hcand]
  simp [classify_batches, hw, check_warranty_already_notified]

/-- C1: a single scheduler pass over a non-decommissioned asset with a
warranty date computes `days_remaining = warranty_end - today` and assigns
exactly one tier: the expired batch when `days_remaining < 0`, the critical
30-day batch when `0 ≤ days_remaining ≤ 30`, the warning 90-day batch when
`31 ≤ days_remaining ≤ 90`, and no batch at all when `days_remaining > 90`;
in particular `warranty_end = today + 30` lands in the critical batch and
`warranty_end = today + 31` in the warning batch. -/
theorem c1_classifier_tiers (a : Asset) (we today now : Int)
    (hs : a.status ≠ AssetStatus.decommissioned) (hw : a.warranty_end = some we) :
    ((we - today < 0) ↔
      classify_batches [] today now (warranty_candidates [a]) = ⟨[a], [], []⟩) ∧
    ((0 ≤ we - today ∧ we - today ≤ 30) ↔
      classify_batches [] today now (warranty_candidates [a]) = ⟨[], [a], []⟩) ∧
    ((31 ≤ we - today ∧ we - today ≤ 90) ↔
      classify_batches [] today now (warranty_candidates [a]) = ⟨[], [], [a]⟩) ∧
    ((90 < we - today) ↔
      classify_batches [] today now (warranty_candidates [a]) = ⟨[], [], []⟩) ∧
    (we = today + 30 →
      classify_batches [] today now (warranty_candidates [a]) = ⟨[], [a], []⟩) ∧
    (we = today + 31 →
      classify_batches [] today now (warranty_candidates [a]) = ⟨[], [], [a]⟩) := by
  rw [singleton_batches a we today now hs hw]
  by_cases h1 : we - today < 0
  · rw [if_pos h1]
    refine ⟨by simp [h1], ?_, ?_, ?_, ?_, ?_⟩
    · constructor
      · intro h; exfalso; omega
      · intro h; exfalso; simp at h
    · constructor
      · intro h; exfalso; omega
      · intro h; exfalso; simp at h
    · constructor
      · intro h; exfalso; omega
      · intro h; exfalso; simp at h
    · intro h; exfalso; omega
    · intro h; exfalso; omega
  · by_cases h2 : we - today ≤ 30
    · rw [if_neg h1, if_pos h2]
      refine ⟨?_, ⟨fun _ => rfl, fun _ => by omega⟩, ?_, ?_, fun _ => rfl, ?_⟩
      · constructor
        · intro h; exfalso; omega
        · intro h; exfalso; simp at h
      · constructor
        · intro h; exfalso; omega
        · intro h; exfalso; simp at h
      · constructor
        · intro h; exfalso; omega
        · intro h; exfalso; simp at h
      · intro h; exfalso; omega
    · by_cases h3 : we - today ≤ 90
      · rw [if_neg h1, if_neg h2, if_pos h3]
        refine ⟨?_, ?_, ⟨fun _ => rfl, fun _ => by omega⟩, ?_, ?_, fun _ => rfl⟩
        · constructor
          · intro h; exfalso; omega
          · intro h; exfalso; simp at h
        · constructor
          · intro h; exfalso; omega
          · intro h; exfalso; simp at h
        · constructor
          · intro h; exfalso; omega
          · intro h; exfalso; simp at h
        · intro h; exfalso; omega
      · rw [if_neg h1, if_neg h2, if_neg h3]
        refine ⟨?_, ?_, ?_, ⟨fun _ => rfl, fun _ => by omega⟩, ?_, ?_⟩
        · constructor
          · intro h; exfalso; omega
          · intro h; exfalso; simp at h
        · constructor
          · intro h; exfalso; omega
          · intro h; exfalso; simp at h
        · constructor
          · intro h; exfalso; omega
          · intro h; exfalso; simp at h
        · intro h; exfalso; omega
        · intro h; exfalso; omega

theorem c1_classifier_tiers_witness :
    classify_batches [] 0 0 (warranty_candidates [availAsset]) =
      ⟨[], [availAsset], []⟩ :=
  (c1_classifier_tiers availAsset 30 0 0 (by decide) rfl).2.2.2.2.1 (by decide)

/-- C2: for an asset the loop classified into tier `t`, the run suppresses its
alert (leaves it out of the tier's batch) exactly when the history store holds
a record with the same asset id and the same notification type sent within the
type-specific cooldown lookback from `now` — 30 days for `expired`, 7 for
`30_day`, 14 for `90_day`. -/
theorem c2_cooldown_suppression (l : List Asset) (hist : List WarrantyNotification)
    (today now : Int) (a : Asset) (we : Int) (t : NotifType)
    (hmem : a ∈ l) (hw : a.warranty_end = some we)
    (hcls : classify_alert (we - today) = some t) :
    ((a ∉ (classify_batches hist today now l).ofType t) ↔
      ∃ r ∈ hist, r.asset_id = a.id ∧ r.notification_type = t ∧
        now - lookbackFor t ≤ r.sent_at) ∧
    lookbackFor NotifType.expired = 30 ∧ lookbackFor NotifType.day30 = 7 ∧
    lookbackFor NotifType.day90 = 14 := by
  refine ⟨?_, rfl, rfl, rfl⟩
  rw [mem_classify_batches]
  have hsel : tier_selected hist today now a t =
      !check_warranty_already_notified hist a.id t (lookbackFor t) now := by
    simp [tier_selected, hw, hcls]
  rw [← check_warranty_iff]
  constructor
  · intro hna
    by_contra hc
    exact hna ⟨hmem, by simp [hsel, Bool.eq_false_iff.mpr hc]⟩
  · intro hc hpair
    rw [hsel] at hpair
    simp [hc] at hpair

theorem c2_cooldown_suppression_witness :
    availAsset ∉ (classify_batches histSample 0 0 [availAsset]).ofType NotifType.day30 :=
  (c2_cooldown_suppression [availAsset] histSample 0 0 availAsset 30 NotifType.day30
      (by simp) rfl (by decide)).1.mpr
    ⟨⟨2, NotifType.day30, 0⟩, by simp [histSample], rfl, rfl, by decide⟩

theorem singleton_summary (a : Asset) (we today : Int)
    (hs : a.status ≠ AssetStatus.decommissioned) (hw : a.warranty_end = some we) :
    get_warranty_summary [a] today =
      if we - today < 0 then ⟨[⟨a.id, we - today⟩], [], [], []⟩
      else if we - today ≤ 30 then ⟨[], [⟨a.id, we - today⟩], [], []⟩
      else if we - today ≤ 90 then ⟨[], [], [⟨a.id, we - today⟩], []⟩
      else ⟨[], [], [], [⟨a.id, we - today⟩]⟩ := by
  have hcand : warranty_candidates [a] = [a] := by
    simp [warranty_candidates, hs, hw]
  rw [get_warranty_summary, hcand]
  simp [summary_loop, hw]

/-- C10: for every non-decommissioned asset with a warranty date and every
value of `today`, the dashboard summary bucket (expired / critical_30 /
warning_90 / active) agrees with the tier the alert run classifies the asset
into (expired batch / 30-day batch / 90-day batch / no batch), and the summary
entry carries the same `days_remaining = warranty_end - today`. -/
theorem c10_summary_refines_alert (a : Asset) (we today now : Int)
    (hs : a.status ≠ AssetStatus.decommissioned) (hw : a.warranty_end = some we) :
    ((⟨a.id, we - today⟩ : SummaryInfo) ∈ (get_warranty_summary [a] today).expired ↔
      a ∈ (classify_batches [] today now (warranty_candidates [a])).expired) ∧
    ((⟨a.id, we - today⟩ : SummaryInfo) ∈ (get_warranty_summary [a] today).critical_30 ↔
      a ∈ (classify_batches [] today now (warranty_candidates [a])).expiring_30) ∧
    ((⟨a.id, we - today⟩ : SummaryInfo) ∈ (get_warranty_summary [a] today).warning_90 ↔
      a ∈ (classify_batches [] today now (warranty_candidates [a])).expiring_90) ∧
    ((⟨a.id, we - today⟩ : SummaryInfo) ∈ (get_warranty_summary [a] today).active ↔
      classify_batches [] today now (warranty_candidates [a]) = ⟨[], [], []⟩) := by
  rw [singleton_batches a we today now hs hw, singleton_summary a we today hs hw]
  by_cases h1 : we - today < 0
  · rw [if_pos h1, if_pos h1]; simp
  · by_cases h2 : we - today ≤ 30
    · rw [if_neg h1, if_neg h1, if_pos h2, if_pos h2]; simp
    · by_cases h3 : we - today ≤ 90
      · rw [if_neg h1, if_neg h1, if_neg h2, if_neg h2, if_pos h3, if_pos h3]; simp
      · rw [if_neg h1, if_neg h1, if_neg h2, if_neg h2, if_neg h3, if_neg h3]; simp

theorem c10_summary_refines_alert_witness :
    ((⟨2, (30 : Int) - 0⟩ : SummaryInfo) ∈
        (get_warranty_summary [availAsset] 0).critical_30 ↔
      availAsset ∈
        (classify_batches [] 0 0 (warranty_candidates [availAsset])).expiring_30) :=
  (c10_summary_refines_alert availAsset 30 0 0 (by decide) rfl).2.1

theorem row_mem_run_closed (hist : List WarrantyNotification)
    (admin_emails : List String) (send_success : NotifType → Bool) (now : Int)
    (b : Batches) (t : NotifType) (a : Asset)
    (ha : a ∈ b.ofType t) (hsend : send_success t = true) :
    notification_row t now a ∈ (run_closed hist admin_emails send_success now b).hist := by
  have hmem : notification_row t now a ∈ rows_for b send_success now t := by
    rw [rows_for, if_pos hsend]
    exact List.mem_map_of_mem _ ha
  cases t <;> simp [run_closed, List.mem_append] <;> tauto

/-- C3: with an unchanged asset set, the same clock, and every first-run
delivery confirmed, a second scheduler run is a no-op: it makes no notifier
calls and appends no history rows, so the history store after both runs equals
the store after the first run alone. -/
theorem c3_idempotent_rerun (assets : List Asset) (hist : List WarrantyNotification)
    (today now : Int) (admin_emails : List String) (send_success : NotifType → Bool)
    (hsend : ∀ t, send_success t = true) :
    check_and_send_warranty_alerts assets
        (check_and_send_warranty_alerts assets hist today now admin_emails
          send_success).hist today now admin_emails send_success =
      ⟨(check_and_send_warranty_alerts assets hist today now admin_emails
          send_success).hist, []⟩ := by
  cases hemp : admin_emails.isEmpty with
  | true =>
    rw [run_no_admins assets hist today now admin_emails send_success hemp]
    exact run_no_admins assets _ today now admin_emails send_success hemp
  | false =>
    rw [run_eq assets hist today now admin_emails send_success hemp]
    set H2 := (run_closed hist admin_emails send_success now
      (classify_batches hist today now (warranty_candidates assets))).hist with hH2
    have hb2 : ∀ t, (classify_batches H2 today now
        (warranty_candidates assets)).ofType t = [] := by
      intro t
      rw [List.eq_nil_iff_forall_not_mem]
      intro a ha
      rw [mem_classify_batches] at ha
      obtain ⟨hmem, hsel⟩ := ha
      rw [tier_selected_iff] at hsel
      obtain ⟨we, hwe, hcls, hchk2⟩ := hsel
      cases hchk1 : check_warranty_already_notified hist a.id t (lookbackFor t) now with
      | true =>
        have hstill : check_warranty_already_notified H2
            a.id t (lookbackFor t) now = true := by
          rw [hH2]
          simp only [run_closed]
          rw [List.append_assoc, List.append_assoc]
          exact check_warranty_append _ _ _ _ _ _ hchk1
        rw [hstill] at hchk2
        cases hchk2
      | false =>
        have hsel1 : tier_selected hist today now a t = true := by
          rw [tier_selected_iff]
          exact ⟨we, hwe, hcls, hchk1⟩
        have ha1 : a ∈ (classify_batches hist today now
            (warranty_candidates assets)).ofType t :=
          (mem_classify_batches _ _ _ _ _ _).mpr ⟨hmem, hsel1⟩
        have hrow : notification_row t now a ∈ H2 := by
          rw [hH2]
          exact row_mem_run_closed _ _ _ _ _ _ _ ha1 (hsend t)
        have hchk : check_warranty_already_notified H2
            a.id t (lookbackFor t) now = true := by
          rw [check_warranty_iff]
          refine ⟨notification_row t now a, hrow, rfl, rfl, ?_⟩
          cases t <;> simp [lookbackFor, notification_row]
        rw [hchk] at hchk2
        cases hchk2
    rw [run_eq assets H2 today now admin_emails send_success hemp]
    simp only [run_closed]
    simp [rows_for, call_for, hb2]

theorem c3_idempotent_rerun_witness :
    check_and_send_warranty_alerts [availAsset]
        (check_and_send_warranty_alerts [availAsset] [] 0 0 ["admin@example.com"]
          allSendsOk).hist 0 0 ["admin@example.com"] allSendsOk =
      ⟨(check_and_send_warranty_alerts [availAsset] [] 0 0 ["admin@example.com"]
          allSendsOk).hist, []⟩ :=
  c3_idempotent_rerun [availAsset] [] 0 0 ["admin@example.com"] allSendsOk
    (fun _ => rfl)

theorem filter_rows (t tp : NotifType) (now : Int) (l : List Asset) :
    (l.map (notification_row tp now)).filter
        (fun r => decide (r.notification_type = t)) =
      if tp = t then l.map (notification_row tp now) else [] := by
  induction l with
  | nil => simp
  | cons x xs ih =>
    by_cases h : tp = t
    · subst h; simp [notification_row, ih]
    · simp [notification_row, h, ih]

theorem filter_rows_for (b : Batches) (send_success : NotifType → Bool)
    (now : Int) (t tp : NotifType) :
    (rows_for b send_success now tp).filter
        (fun r => decide (r.notification_type = t)) =
      if tp = t then rows_for b send_success now tp else [] := by
  unfold rows_for
  by_cases hs : send_success tp = true
  · rw [if_pos hs, filter_rows]
  · simp [hs]

theorem run_hist_filter (assets : List Asset) (hist : List WarrantyNotification)
    (today now : Int) (admin_emails : List String)
    (send_success : NotifType → Bool) (hne : admin_emails.isEmpty = false)
    (t : NotifType) :
    (check_and_send_warranty_alerts assets hist today now admin_emails
        send_success).hist.filter (fun r => decide (r.notification_type = t)) =
      hist.filter (fun r => decide (r.notification_type = t)) ++
        rows_for (classify_batches hist today now (warranty_candidates assets))
          send_success now t := by
  rw [run_eq assets hist today now admin_emails send_success hne]
  simp only [run_closed]
  rw [List.filter_append, List.filter_append, List.filter_append,
    filter_rows_for, filter_rows_for, filter_rows_for]
  cases t <;> simp

theorem mem_call_for (b : Batches) (admin_emails : List String)
    (send_success : NotifType → Bool) (t tp : NotifType) :
    ((⟨t, admin_emails, (b.ofType t).map (fun a => a.id), send_success t⟩ :
        NotifierCall) ∈ call_for b admin_emails send_success tp) ↔
      (t = tp ∧ b.ofType t ≠ []) := by
  unfold call_for
  by_cases hb : (b.ofType tp).isEmpty = true
  · rw [if_pos hb]
    simp only [List.not_mem_nil, false_iff]
    rintro ⟨rfl, hne⟩
    exact hne (by simpa using hb)
  · rw [if_neg hb]
    simp only [List.mem_singleton]
    constructor
    · intro h
      rw [NotifierCall.mk.injEq] at h
      obtain ⟨h1, -, -, -⟩ := h
      subst h1
      exact ⟨rfl, fun hnil => by simp [hnil] at hb⟩
    · rintro ⟨rfl, hne⟩
      rfl

/-- C4: in a run with configured recipients, the history rows of type `t`
grow by exactly one row per asset of the type-`t` batch (each with
`sent_at = now`) when the notifier confirmed that batch, and do not grow at
all when delivery of that batch failed (leaving those assets eligible next
run); and the notifier is handed every non-empty batch exactly once,
regardless of the other batches' outcomes. -/
theorem c4_history_iff_delivery (assets : List Asset)
    (hist : List WarrantyNotification) (today now : Int)
    (admin_emails : List String) (send_success : NotifType → Bool)
    (hne : admin_emails.isEmpty = false) (t : NotifType) :
    (send_success t = true →
      (check_and_send_warranty_alerts assets hist today now admin_emails
          send_success).hist.filter (fun r => decide (r.notification_type = t)) =
        hist.filter (fun r => decide (r.notification_type = t)) ++
          ((classify_batches hist today now (warranty_candidates assets)).ofType
            t).map (notification_row t now)) ∧
    (send_success t = false →
      (check_and_send_warranty_alerts assets hist today now admin_emails
          send_success).hist.filter (fun r => decide (r.notification_type = t)) =
        hist.filter (fun r => decide (r.notification_type = t))) ∧
    (((⟨t, admin_emails,
        ((classify_batches hist today now (warranty_candidates assets)).ofType
          t).map (fun a => a.id), send_success t⟩ : NotifierCall) ∈
        (check_and_send_warranty_alerts assets hist today now admin_emails
          send_success).calls) ↔
      (classify_batches hist today now (warranty_candidates assets)).ofType t ≠ []) := by
  refine ⟨?_, ?_, ?_⟩
  · intro hs
    rw [run_hist_filter assets hist today now admin_emails send_success hne t,
      rows_for, if_pos hs]
  · intro hs
    rw [run_hist_filter assets hist today now admin_emails send_success hne t,
      rows_for, hs]
    simp
  · rw [run_eq assets hist today now admin_emails send_success hne]
    simp only [run_closed, List.mem_append, mem_call_for]
    cases t <;> simp

theorem c4_history_iff_delivery_witness :
    (check_and_send_warranty_alerts [availAsset] [] 0 0 ["admin@example.com"]
        allSendsOk).hist.filter
        (fun r => decide (r.notification_type = NotifType.day30)) =
      ([] : List WarrantyNotification).filter
          (fun r => decide (r.notification_type = NotifType.day30)) ++
        ((classify_batches [] 0 0 (warranty_candidates [availAsset])).ofType
          NotifType.day30).map (notification_row NotifType.day30 0) :=
  (c4_history_iff_delivery [availAsset] [] 0 0 ["admin@example.com"] allSendsOk
    rfl NotifType.day30).1 rfl

/-- C5 counterexample: the free-form update endpoint moves a decommissioned
asset back to `available`, so decommissioned is not terminal under every
operation listed by the claim. -/
theorem c5_counterexample :
    decomAsset.status = AssetStatus.decommissioned ∧
    (update_asset decomAsset { status := some AssetStatus.available }).1.status =
      AssetStatus.available := by
  constructor
  · rfl
  · decide

/-- C5 (amended): decommissioned is terminal for the lifecycle operations —
assign, unassign (both via `assign_asset`), decommission, record-repair and
mark-fixed each leave a decommissioned asset record entirely unchanged — but
the free-form `update_asset` edit is excluded, since it overwrites `status`
with any requested value without checking the current state. -/
theorem c5_terminal_amended (a : Asset)
    (h : a.status = AssetStatus.decommissioned) :
    (∀ employee_id employeeExists today,
      (assign_asset a employee_id employeeExists today).2.1 = a) ∧
    (∀ reason today, (decommission_asset a reason today).2.1 = a) ∧
    (∀ repairs rd, (add_repair a repairs rd).1 = a) ∧
    (mark_asset_fixed a).2.1 = a := by
  refine ⟨?_, ?_, ?_, ?_⟩
  · intro e ex today
    simp [assign_asset, h]
  · intro reason today
    unfold decommission_asset
    by_cases hlen : reason.length < 10
    · simp [hlen]
    · simp [hlen, h]
  · intro repairs rd
    simp [add_repair, h]
  · simp [mark_asset_fixed, h]

theorem c5_terminal_amended_witness :
    (assign_asset decomAsset none allEmployees 3).2.1 = decomAsset :=
  (c5_terminal_amended decomAsset rfl).1 none allEmployees 3

/-- C6 counterexample: the free-form update endpoint can set `status` to
`active` without touching `assigned_to`, breaking the assignment invariant. -/
theorem c6_counterexample :
    assetInvariant availAsset ∧
    ¬ assetInvariant
        (update_asset availAsset { status := some AssetStatus.active }).1 := by
  constructor
  · decide
  · decide

/-- C6 (amended): the lifecycle operations — assign/unassign, decommission,
record-repair and mark-fixed — preserve the invariant that `assigned_to` is
set iff `status == active`, with `repair` allowed to retain an assignee; the
free-form `update_asset` edit is excluded, since it can set `status` without
touching `assigned_to`. -/
theorem c6_invariant_amended (a : Asset) (h : assetInvariant a) :
    (∀ employee_id employeeExists today,
      assetInvariant (assign_asset a employee_id employeeExists today).2.1) ∧
    (∀ reason today, assetInvariant (decommission_asset a reason today).2.1) ∧
    (∀ repairs rd, assetInvariant (add_repair a repairs rd).1) ∧
    assetInvariant (mark_asset_fixed a).2.1 := by
  refine ⟨?_, ?_, ?_, ?_⟩
  · intro e ex today
    unfold assign_asset
    by_cases hd : a.status = AssetStatus.decommissioned
    · simpa [hd] using h
    · cases e with
      | some emp =>
        by_cases hex : ex emp = true
        · simp [hd, hex, assetInvariant]
        · simpa [hd, hex] using h
      | none => simp [hd, assetInvariant]
  · intro reason today
    unfold decommission_asset
    by_cases hlen : reason.length < 10
    · simpa [hlen] using h
    · by_cases hd : a.status = AssetStatus.decommissioned
      · simpa [hlen, hd] using h
      · simp [hlen, hd, assetInvariant]
  · intro repairs rd
    unfold add_repair
    by_cases hd : a.status = AssetStatus.decommissioned
    · simpa [hd] using h
    · simp [hd, assetInvariant]
  · unfold mark_asset_fixed
    by_cases hr : a.status = AssetStatus.repair
    · by_cases hs : a.assigned_to.isSome = true <;>
        simp [hr, hs, assetInvariant]
    · simpa [hr] using h

theorem c6_invariant_amended_witness :
    assetInvariant (assign_asset availAsset (some 5) allEmployees 0).2.1 :=
  (c6_invariant_amended availAsset (by decide)).1 (some 5) allEmployees 0

/-- C7: assigning (or unassigning) a decommissioned asset is rejected with the
invalid-transition error, the asset record is returned byte-for-byte
unchanged, and no audit fact is written. -/
theorem c7_assign_decommissioned (a : Asset) (employee_id : Option Nat)
    (employeeExists : Nat → Bool) (today : Int)
    (h : a.status = AssetStatus.decommissioned) :
    assign_asset a employee_id employeeExists today =
      (Except.error ApiError.invalidTransition, a, []) := by
  simp [assign_asset, h]

theorem c7_assign_decommissioned_witness :
    assign_asset decomAsset (some 3) allEmployees 5 =
      (Except.error ApiError.invalidTransition, decomAsset, []) :=
  c7_assign_decommissioned decomAsset (some 3) allEmployees 5 rfl

/-- C8: decommissioning rejects a reason shorter than 10 characters with a
validation error before any state change; with a reason of length at least 10
on a non-decommissioned asset it succeeds, setting `status` to decommissioned,
`decommission_date` to today, `decommission_reason` to the reason, and
clearing `assigned_to` and `assigned_date`. -/
theorem c8_decommission_validation (a : Asset) (reason : String) (today : Int) :
    (reason.length < 10 →
      decommission_asset a reason today =
        (Except.error ApiError.validationError, a, [])) ∧
    (10 ≤ reason.length → a.status ≠ AssetStatus.decommissioned →
      decommission_asset a reason today =
        (Except.ok (),
         { a with status := AssetStatus.decommissioned,
                  decommission_date := some today,
                  decommission_reason := some reason,
                  assigned_to := none, assigned_date := none },
         [⟨"DECOMMISSION", "asset", a.id⟩])) := by
  constructor
  · intro h
    simp [decommission_asset, h]
  · intro h1 h2
    have h3 : ¬ reason.length < 10 := by omega
    simp [decommission_asset, h3, h2]

theorem c8_decommission_validation_witness :
    decommission_asset availAsset "battery swollen" 7 =
      (Except.ok (),
       { availAsset with status := AssetStatus.decommissioned,
                         decommission_date := some 7,
                         decommission_reason := some "battery swollen",
                         assigned_to := none, assigned_date := none },
       [⟨"DECOMMISSION", "asset", availAsset.id⟩]) :=
  (c8_decommission_validation availAsset "battery swollen" 7).2 (by decide)
    (by decide)

/-- C9 counterexample: calling the repair endpoint on a decommissioned asset
does not fail — it appends the repair record anyway (only the status change is
skipped), contradicting the claim that it fails with no mutation. -/
theorem c9_counterexample :
    decomAsset.status = AssetStatus.decommissioned ∧
    (add_repair decomAsset [] rdSample).2.1 ≠ [] ∧
    (add_repair decomAsset [] rdSample).1 = decomAsset := by
  refine ⟨rfl, ?_, by decide⟩
  decide

/-- C9 (amended): on a non-decommissioned asset, record-repair sets `status`
to `repair`, appends the repair record, and leaves `assigned_to` (and every
other field) unchanged; on a decommissioned asset it does not fail — it still
appends the repair record and logs, but leaves the asset untouched. -/
theorem c9_record_repair_amended (a : Asset) (repairs : List RepairRec)
    (rd : RepairCreate) :
    (a.status ≠ AssetStatus.decommissioned →
      add_repair a repairs rd =
        ({ a with status := AssetStatus.repair },
         repairs ++ [⟨a.id, rd.repair_date, rd.issue_description, rd.resolution,
           rd.cost, rd.is_warranty_repair, rd.vendor, rd.ticket_number⟩],
         [⟨"CREATE", "repair", a.id⟩])) ∧
    (a.status = AssetStatus.decommissioned →
      add_repair a repairs rd =
        (a,
         repairs ++ [⟨a.id, rd.repair_date, rd.issue_description, rd.resolution,
           rd.cost, rd.is_warranty_repair, rd.vendor, rd.ticket_number⟩],
         [⟨"CREATE", "repair", a.id⟩])) := by
  constructor
  · intro h
    simp [add_repair, h]
  · intro h
    simp [add_repair, h]

theorem c9_record_repair_amended_witness :
    add_repair availAsset [] rdSample =
      ({ availAsset with status := AssetStatus.repair },
       [⟨availAsset.id, rdSample.repair_date, rdSample.issue_description,
         rdSample.resolution, rdSample.cost, rdSample.is_warranty_repair,
         rdSample.vendor, rdSample.ticket_number⟩],
       [⟨"CREATE", "repair", availAsset.id⟩]) :=
  (c9_record_repair_amended availAsset [] rdSample).1 (by decide)
